import Mathlib

/-!
Verification of the SP messaging library core (nng) against its specification.

Shallow embedding of the relevant source functions:
  * src/src/core/pipe.c              (pipe lifecycle; also contains core/aio.c)
  * src/src/sp/transport/tls/tls.c   (SP framing over TLS streams)
  * src/src/platform/windows/win_ipcconn.c (Windows IPC connection)

Machine integers are modelled as Nat with explicit reductions mod 2^w where
the C code can overflow; fallible operations return Option/Except; mutable
state is passed explicitly.  Each definition carries a comment naming the
source function and lines it was translated from.
-/

namespace Nng

/-- Error codes of the library (enum nng_err in the public header).  The
numeric values are irrelevant to the claims; the constructors cover every
code the embedded functions mention, plus representatives of the remaining
codes so that a "default" switch arm is meaningful. -/
inductive NngErr where
  | ok
  | eintr
  | enomem
  | einval
  | ebusy
  | etimedout
  | econnrefused
  | eclosed
  | eagain
  | enotsup
  | eaddrinuse
  | estate
  | enoent
  | eproto
  | eunreachable
  | eaddrinval
  | eperm
  | emsgsize
  | econnaborted
  | econnreset
  | ecanceled
  | enofiles
  | enospc
  | econnshut
  | estopped
  deriving DecidableEq

/-- NNI_PUT64 (core header): store a 64-bit value into 8 bytes, big-endian.
The C operand is a uint64_t, so the value is reduced mod 2^64 first. -/
def nni_put64 (v : Nat) : List Nat :=
  let n := v % 2 ^ 64
  [n / 2 ^ 56 % 256, n / 2 ^ 48 % 256, n / 2 ^ 40 % 256, n / 2 ^ 32 % 256,
   n / 2 ^ 24 % 256, n / 2 ^ 16 % 256, n / 2 ^ 8 % 256, n % 256]

/-- NNI_GET64 (core header): read 8 bytes, big-endian, into a 64-bit value. -/
def nni_get64 (b : List Nat) : Nat :=
  b.getD 0 0 * 2 ^ 56 + b.getD 1 0 * 2 ^ 48 + b.getD 2 0 * 2 ^ 40 +
  b.getD 3 0 * 2 ^ 32 + b.getD 4 0 * 2 ^ 24 + b.getD 5 0 * 2 ^ 16 +
  b.getD 6 0 * 2 ^ 8 + b.getD 7 0

/-- NNI_PUT16 (core header): store a 16-bit value into 2 bytes, big-endian. -/
def nni_put16 (v : Nat) : List Nat :=
  let n := v % 2 ^ 16
  [n / 256, n % 256]

/-- NNI_GET16 (core header): read 2 bytes, big-endian, into a 16-bit value. -/
def nni_get16 (hi lo : Nat) : Nat :=
  hi * 256 + lo

theorem nni_get64_put64 (v : Nat) : nni_get64 (nni_put64 v) = v % 2 ^ 64 := by
  simp only [nni_put64, nni_get64, List.getD_cons_zero, List.getD_cons_succ]
  omega

/-! ## AIO model (core/aio.c, concatenated into src/src/core/pipe.c) -/

/-- nng_duration constants from the public header:
NNG_DURATION_ZERO = 0, NNG_DURATION_INFINITE = -1, NNG_DURATION_DEFAULT = -2. -/
def durationZero : Int := 0

def durationInfinite : Int := -1

def durationDefault : Int := -2

/-- NNI_TIME_NEVER: the largest 64-bit time value. -/
def timeNever : Nat := 2 ^ 64 - 1

/-- State of one nni_aio (struct nni_aio).  Fields are named after the C
fields (a_ prefix dropped).  The cancel function and argument installed by a
provider are modelled as opaque identifiers.  Membership in the expiration
queue is a boolean. -/
structure NngAio where
  result : NngErr
  count : Nat
  timeout : Int
  expire : Nat
  useExpire : Bool
  expireOk : Bool
  sleep : Bool
  stopFlag : Bool
  stopped : Bool
  abortFlag : Bool
  cancelFn : Option Nat
  cancelArg : Nat
  inExpireQ : Bool
  deriving DecidableEq

/-- nni_aio_init (aio.c): zero the aio, set expire = NNI_TIME_NEVER and
timeout = NNG_DURATION_INFINITE. -/
def nni_aio_init : NngAio :=
  { result := .ok, count := 0, timeout := durationInfinite, expire := timeNever,
    useExpire := false, expireOk := false, sleep := false, stopFlag := false,
    stopped := false, abortFlag := false, cancelFn := none, cancelArg := 0,
    inExpireQ := false }

/-- nni_aio_reset (aio.c): clear result, count, abort, expire_ok, sleep and
the outputs before a new use. -/
def nni_aio_reset (a : NngAio) : NngAio :=
  { a with result := .ok, count := 0, abortFlag := false, expireOk := false,
           sleep := false }

/-- Result of nni_aio_start: either the operation was started (cancel
function installed, true returned), or the task was dispatched with a result
code and false returned.  assertsOk records whether the NNI_ASSERT
statements in the executed path hold (NNI_ASSERT(!aio->a_stopped) at entry,
NNI_ASSERT(aio->a_result != NNG_OK) in the abort branch,
NNI_ASSERT(aio->a_cancel_fn == NULL) before installing). -/
structure StartRes where
  started : Bool
  dispatched : Option NngErr
  assertsOk : Bool
  deriving DecidableEq

/-- nni_aio_start (aio.c lines 778-856 of src/src/core/pipe.c).  `eqStop` is
the stop flag of the aio's expiration queue; `now` is nni_clock(); `cancel`
and `data` are the provider's cancel function and argument.  Returns the
updated aio state together with the StartRes.  The expiration-queue insertion
performed when expire != NNI_TIME_NEVER and cancel != NULL is recorded in
inExpireQ. -/
def nni_aio_start (a0 : NngAio) (eqStop : Bool) (now : Nat)
    (cancel : Option Nat) (data : Nat) : NngAio × StartRes :=
  -- convert the relative timeout to an absolute timeout
  let conv : NngAio × Bool :=
    if ¬ a0.sleep ∧ ¬ a0.useExpire then
      if a0.timeout = durationZero then (a0, true)
      else if a0.timeout = durationInfinite ∨ a0.timeout = durationDefault then
        ({ a0 with expire := timeNever }, false)
      else ({ a0 with expire := now + a0.timeout.toNat }, false)
    else if a0.useExpire ∧ a0.expire ≤ now then (a0, true)
    else (a0, false)
  let a1 := conv.1
  let timeout := conv.2
  let a2 := if ¬ a1.sleep then { a1 with expireOk := false } else a1
  -- the code then unconditionally clears the result before taking the lock
  let a3 := { a2 with result := .ok }
  let entryOk := ¬ a3.stopped
  if a3.stopFlag ∨ eqStop then
    ({ a3 with stopFlag := true, sleep := false, expireOk := false,
               count := 0, result := .estopped, stopped := true },
     { started := false, dispatched := some .estopped, assertsOk := entryOk })
  else if a3.abortFlag then
    ({ a3 with sleep := false, abortFlag := false, expireOk := false,
               count := 0 },
     { started := false, dispatched := some a3.result,
       assertsOk := entryOk ∧ a3.result ≠ .ok })
  else if timeout then
    let res := if a3.expireOk then NngErr.ok else NngErr.etimedout
    ({ a3 with sleep := false, result := res, expireOk := false, count := 0 },
     { started := false, dispatched := some res, assertsOk := entryOk })
  else
    ({ a3 with cancelFn := cancel, cancelArg := data,
               inExpireQ := a3.expire ≠ timeNever ∧ cancel.isSome },
     { started := true, dispatched := none,
       assertsOk := entryOk ∧ a3.cancelFn = none })

/-- nni_aio_abort (aio.c lines 860-887 of src/src/core/pipe.c): remove from
the expiration queue, read and clear the cancel function and argument under
the lock; if a cancel function was installed return it for invocation
outside the lock (second component: function id, argument, rv), otherwise
mark the aio aborted with result rv. -/
def nni_aio_abort (a : NngAio) (rv : NngErr) :
    NngAio × Option (Nat × Nat × NngErr) :=
  let a1 := { a with inExpireQ := false }
  match a1.cancelFn with
  | some fn =>
      ({ a1 with cancelFn := none, cancelArg := 0 }, some (fn, a1.cancelArg, rv))
  | none =>
      ({ a1 with cancelFn := none, cancelArg := 0, abortFlag := true,
                 result := rv }, none)

/-! ## Pipe lifecycle (src/src/core/pipe.c) -/

/-- nni_atomic_swap_bool: atomically replace the flag with v, returning the
previous value (old, new). -/
def nni_atomic_swap_bool (b v : Bool) : Bool × Bool :=
  (b, v)

/-- Observable state of one nni_pipe for the close/reap discipline: the
p_closed atomic flag and whether the pipe has been submitted to the reap
list. -/
structure PipeCloseState where
  p_closed : Bool
  reapSubmitted : Bool
  deriving DecidableEq

/-- nni_pipe_close (pipe.c lines 130-138): atomic swap of the closed flag;
if it was already set, return without effect; otherwise submit the pipe to
the reap list.  The Bool result records whether nni_reap was called. -/
def nni_pipe_close (p : PipeCloseState) : PipeCloseState × Bool :=
  let sw := nni_atomic_swap_bool p.p_closed true
  if sw.1 then
    ({ p with p_closed := sw.2 }, false)
  else
    ({ p with p_closed := sw.2, reapSubmitted := true }, true)

/-- The externally visible actions performed by the reap worker on a pipe,
in the order pipe_reap issues them. -/
inductive ReapEvent where
  | protoPipeClose   -- p_proto_ops.pipe_close
  | tranClose        -- p_tran_ops.p_close
  | evRemPost        -- nni_pipe_run_cb(p, NNG_PIPE_EV_REM_POST)
  | idMapRemove      -- nni_id_remove(&pipes, p_id) under pipes_lk
  | protoPipeStop    -- p_proto_ops.pipe_stop
  | tranStop         -- p_tran_ops.p_stop
  | sockRemove       -- nni_pipe_remove(p)
  | refRele          -- nni_pipe_rele(p)
  deriving DecidableEq

/-- pipe_reap (pipe.c lines 46-76): the sequence of actions the reap worker
performs on a reaped pipe.  The id-map removal is guarded by p_id != 0 (a
pipe whose id allocation failed has id 0).  The NNG_ENABLE_STATS
stat-unregister step is compiled out in this model. -/
def pipe_reap (p_id : Nat) : List ReapEvent :=
  [.protoPipeClose, .tranClose, .evRemPost] ++
  (if p_id ≠ 0 then [.idMapRemove] else []) ++
  [.protoPipeStop, .tranStop, .sockRemove, .refRele]

/-- NNI_ALIGN_UP from the core headers (not under src/): round a size up to
the alignment boundary (pointer size, 8 bytes). -/
def NNI_ALIGN_UP (sz : Nat) : Nat :=
  (sz + 7) / 8 * 8

/-- Modelled from the spec: nni_id_alloc32 on the global `pipes` id map
(the id-map implementation, core/idhash.c, is not under src/).  The map is
statically initialized with NNI_ID_MAP_INITIALIZER(1, 0x7fffffff,
NNI_ID_FLAG_RANDOM): allocation stores the pipe under a random id in
[1, 0x7fffffff] that is not already in use.  `used` is the current id set
and `pick` the random candidate; a candidate violating the allocator's
postcondition stands for allocation failure (map exhausted), which the
allocator reports as NNG_ENOMEM. -/
def nni_id_alloc32 (used : List Nat) (pick : Nat) : Except NngErr Nat :=
  if 1 ≤ pick ∧ pick ≤ 0x7fffffff ∧ pick ∉ used then .ok pick
  else .error .enomem

/-- Observable outcome of pipe_create. -/
structure PipeCreateRes where
  err : Option NngErr       -- returned error (none on success)
  size : Option Nat         -- size of the combined allocated block
  refcnt : Nat              -- initial reference count
  p_id : Nat                -- assigned pipe id (0 if id allocation failed)
  tranInitCalled : Bool     -- tops->p_init invoked
  protoInitCalled : Bool    -- pops->pipe_init invoked
  closedPipe : Bool         -- nni_pipe_close invoked on failure
  releasedRef : Bool        -- nni_pipe_rele invoked on failure
  deriving DecidableEq

/-- pipe_create (pipe.c lines 247-307).  `hdrSize`, `protoSize`, `tranSize`
are sizeof(nni_pipe), pops->pipe_size and tops->p_size(); `used`/`pick`
drive the id allocation; `allocOk` is the nni_zalloc outcome; `rv2`/`rv3`
are the results of the transport and protocol init hooks.  On any failure
of id allocation or either init hook the pipe is closed, the caller's
reference is released, and the first failing code (rv1, else rv2, else rv3)
is returned. -/
def pipe_create (hdrSize protoSize tranSize : Nat) (used : List Nat)
    (pick : Nat) (allocOk : Bool) (rv2 rv3 : NngErr) : PipeCreateRes :=
  let sz := NNI_ALIGN_UP hdrSize + NNI_ALIGN_UP protoSize +
            NNI_ALIGN_UP tranSize
  if ¬ allocOk then
    { err := some .enomem, size := none, refcnt := 0, p_id := 0,
      tranInitCalled := false, protoInitCalled := false,
      closedPipe := false, releasedRef := false }
  else
    -- refcount starts at 2: one for the caller, one self-hold dropped at
    -- close (nni_refcnt_init(&p->p_refcnt, 2, p, pipe_destroy))
    let idrv := nni_id_alloc32 used pick
    let rv1 : NngErr := match idrv with | .ok _ => .ok | .error e => e
    let pid : Nat := match idrv with | .ok i => i | .error _ => 0
    -- both init hooks run before the combined failure check
    if rv1 ≠ .ok ∨ rv2 ≠ .ok ∨ rv3 ≠ .ok then
      { err := some (if rv1 ≠ .ok then rv1 else if rv2 ≠ .ok then rv2 else rv3),
        size := some sz, refcnt := 2, p_id := pid,
        tranInitCalled := true, protoInitCalled := true,
        closedPipe := true, releasedRef := true }
    else
      { err := none, size := some sz, refcnt := 2, p_id := pid,
        tranInitCalled := true, protoInitCalled := true,
        closedPipe := false, releasedRef := false }

/-! ## SP framing over TLS streams (src/src/sp/transport/tls/tls.c) -/

/-- tlstran_pipe_start (tls.c lines 544-571): the 8-byte negotiation header
a pipe transmits, [0x00, 'S', 'P', 0x00, proto_hi, proto_lo, 0x00, 0x00],
where the 16-bit protocol id is stored big-endian at offsets 4-5
(NNI_PUT16(&p->txlen[4], p->proto); NNI_PUT16(&p->txlen[6], 0)). -/
def tlstran_txlen (proto : Nat) : List Nat :=
  [0, 0x53, 0x50, 0] ++ nni_put16 proto ++ [0, 0]

/-- Outcome of checking a fully received negotiation header. -/
structure NegoOutcome where
  peer : Option Nat      -- recorded peer protocol id (NNI_GET16 at 4-5)
  err : Option NngErr    -- error the pipe fails with
  pipeClosed : Bool      -- nng_stream_close + nni_pipe_close on the error path
  deriving DecidableEq

/-- tlstran_pipe_nego_cb, header-validation step (tls.c lines 211-250): once
both 8-byte headers are exchanged, reject with NNG_EPROTO and close the pipe
when any of the literal bytes at offsets 0,1,2,3,6,7 differs from
0x00 'S' 'P' 0x00 0x00 0x00; otherwise record the peer protocol id from
offsets 4-5 and move the pipe to the wait list. -/
def tlstran_nego_check (rx : List Nat) : NegoOutcome :=
  if rx.getD 0 0 ≠ 0 ∨ rx.getD 1 0 ≠ 0x53 ∨ rx.getD 2 0 ≠ 0x50 ∨
     rx.getD 3 0 ≠ 0 ∨ rx.getD 6 0 ≠ 0 ∨ rx.getD 7 0 ≠ 0 then
    { peer := none, err := some .eproto, pipeClosed := true }
  else
    { peer := some (nni_get16 (rx.getD 4 0) (rx.getD 5 0)), err := none,
      pipeClosed := false }

/-- Outcome of the receive path once the 8-byte length header has been read
completely (rxmsg == NULL branch of tlstran_pipe_recv_cb). -/
structure RecvHdrOutcome where
  aioError : Option NngErr   -- nni_aio_finish_error on the user receive aio
  deliveredLen : Option Nat  -- message length handed to the user aio
  bodyReadReq : Option Nat   -- further nng_stream_recv submitted, byte count
  pipeClosed : Bool          -- whether this path closes the pipe
  deriving DecidableEq

/-- tlstran_pipe_recv_cb, length-header branch (tls.c lines 326-368 and the
recv_error path at 385-395).  `len` is NNI_GET64(p->rxlen); `rcvmax` is the
pipe's receive limit; `allocOk` is the nni_msg_alloc outcome.  An oversize
length (len > rcvmax with rcvmax > 0) logs, finishes the user aio with
NNG_EMSGSIZE and frees the (null) rxmsg; the error path does not close or
stop the underlying stream or the pipe.  Otherwise the body is read (len
bytes), or an empty message is delivered at once when len = 0. -/
def tlstran_recv_header (len rcvmax : Nat) (allocOk : Bool) : RecvHdrOutcome :=
  if len > rcvmax ∧ rcvmax > 0 then
    { aioError := some .emsgsize, deliveredLen := none, bodyReadReq := none,
      pipeClosed := false }
  else if ¬ allocOk then
    { aioError := some .enomem, deliveredLen := none, bodyReadReq := none,
      pipeClosed := false }
  else if len ≠ 0 then
    { aioError := none, deliveredLen := none, bodyReadReq := some len,
      pipeClosed := false }
  else
    { aioError := none, deliveredLen := some 0, bodyReadReq := none,
      pipeClosed := false }

/-- tlstran_pipe_send_start (tls.c lines 421-458): the I/O vector prepared
for one message, as the list of buffers handed to nng_stream_send.  The
first buffer is the 8-byte big-endian encoding of header length + body
length (uint64_t addition); the header and body buffers are appended only
when non-empty. -/
def tlstran_send_iovs (header body : List Nat) : List (List Nat) :=
  let len := header.length + body.length
  [nni_put64 len] ++
  (if header.length > 0 then [header] else []) ++
  (if body.length > 0 then [body] else [])

/-- Endpoint-side retry action after an accept completion. -/
inductive AcceptAction where
  | stop                -- cease accepting
  | sleepRetry (ms : Nat)  -- nng_sleep_aio(ms, &ep->timeaio)
  | acceptNow           -- nng_stream_listener_accept immediately
  deriving DecidableEq

/-- Observable outcome of tlstran_accept_cb. -/
structure AcceptOutcome where
  finishUser : Option NngErr  -- pending user accept aio finished with this
  action : AcceptAction
  pipeStarted : Bool          -- a new pipe entered negotiation
  deriving DecidableEq

/-- tlstran_accept_cb (tls.c lines 635-694).  `connRv` is the result of the
listener's accept aio; `epClosed` the endpoint's closed flag; `allocRv` the
result of nni_pipe_alloc_listener; `userPresent` whether ep->useraio is
pending.  On success the pipe starts negotiating and accept is re-armed.
On error the pending user aio (if any) is finished with the error;
NNG_ECLOSED/NNG_ESTOPPED cease accepting; NNG_ENOMEM/NNG_ENOFILES sleep
10 ms on the time aio before re-arming; any other error re-arms accept
immediately unless the endpoint is closed. -/
def tlstran_accept_cb (connRv : NngErr) (epClosed : Bool) (allocRv : NngErr)
    (userPresent : Bool) : AcceptOutcome :=
  let rv : NngErr :=
    if connRv ≠ .ok then connRv
    else if epClosed then .eclosed
    else allocRv
  if rv = .ok then
    { finishUser := none, action := .acceptNow, pipeStarted := true }
  else
    { finishUser := if userPresent then some rv else none,
      action :=
        if rv = .eclosed ∨ rv = .estopped then .stop
        else if rv = .enomem ∨ rv = .enofiles then .sleepRetry 10
        else if ¬ epClosed then .acceptNow
        else .stop,
      pipeStarted := false }

/-- tlstran_timer_cb (tls.c lines 626-633): when the cool-down time aio
completes successfully, re-arm the listener's accept; on error do nothing. -/
def tlstran_timer_cb (rv : NngErr) : AcceptAction :=
  if rv = .ok then .acceptNow else .stop

/-- One TLS transport pipe, as far as the receive limit is concerned. -/
structure TlsPipe where
  pid : Nat
  rcvmax : Nat
  deriving DecidableEq

/-- The tlstran_ep fields involved in matching pipes to user accept/dial
aios.  `matched` records the pipes already handed to the user (the pipe
returned by each completed match), newest first. -/
structure TlsEp where
  rcvmax : Nat
  useraio : Bool
  waitpipes : List TlsPipe
  matched : List TlsPipe
  deriving DecidableEq

/-- tlstran_ep_match (tls.c lines 150-165): when a user aio is pending and a
waiting pipe exists, remove the pipe from the wait list, clear the user aio,
copy the endpoint's current rcvmax into the pipe (p->rcvmax = ep->rcvmax)
and finish the user aio with the pipe as output. -/
def tlstran_ep_match (ep : TlsEp) : TlsEp :=
  match ep.waitpipes with
  | [] => ep
  | p :: rest =>
      if ep.useraio then
        { ep with waitpipes := rest, useraio := false,
                  matched := { p with rcvmax := ep.rcvmax } :: ep.matched }
      else ep

/-- tlstran_ep_set_recvmaxsz (tls.c lines 907-922): when nni_copyin_size
validates the value (modelled by `val = some v`), store it in ep->rcvmax;
nothing else is touched.  nni_copyin_size itself (core/options.c) is not
under src/; on failure the endpoint is unchanged. -/
def tlstran_ep_set_recvmaxsz (ep : TlsEp) (val : Option Nat) : TlsEp :=
  match val with
  | some v => { ep with rcvmax := v }
  | none => ep

/-! ## Windows IPC connection (src/src/platform/windows/win_ipcconn.c) -/

/-- The ipc_conn fields that the cancel routines touch.  AIOs are opaque
identifiers; each queued aio sits on exactly one of the two lists. -/
structure IpcConn where
  send_aios : List Nat
  recv_aios : List Nat
  send_rv : NngErr
  recv_rv : NngErr
  deriving DecidableEq

/-- Observable outcome of an ipc cancel routine. -/
structure IpcCancelOutcome where
  conn : IpcConn
  canceledIo : Bool              -- CancelIoEx issued on the in-flight I/O
  finished : Option (Nat × NngErr)  -- aio finished with error, if any
  deriving DecidableEq

/-- ipc_send_cancel (win_ipcconn.c lines 278-298): if the aio is at the head
of the send queue, record rv in send_rv and cancel the in-flight WriteFile;
otherwise search with NNI_LIST_FOREACH over c->recv_aios (the receive list)
for the aio, and if found remove it and finish it with rv. -/
def ipc_send_cancel (c : IpcConn) (aio : Nat) (rv : NngErr) :
    IpcCancelOutcome :=
  if c.send_aios.head? = some aio then
    { conn := { c with send_rv := rv }, canceledIo := true, finished := none }
  else if aio ∈ c.recv_aios then
    { conn := { c with recv_aios := c.recv_aios.erase aio },
      canceledIo := false, finished := some (aio, rv) }
  else
    { conn := c, canceledIo := false, finished := none }

/-- ipc_recv_cancel (win_ipcconn.c lines 140-160): the same logic on the
receive side, searching the receive list (the correct one). -/
def ipc_recv_cancel (c : IpcConn) (aio : Nat) (rv : NngErr) :
    IpcCancelOutcome :=
  if c.recv_aios.head? = some aio then
    { conn := { c with recv_rv := rv }, canceledIo := true, finished := none }
  else if aio ∈ c.recv_aios then
    { conn := { c with recv_aios := c.recv_aios.erase aio },
      canceledIo := false, finished := some (aio, rv) }
  else
    { conn := c, canceledIo := false, finished := none }

/-! ## Theorems for the claims -/

/-- Claim C1: the claim says an AIO aborted before a provider engaged makes
the next nni_aio_start return false and dispatch the callback with the
stored abort value.  Evaluating the code at that input refutes the dispatch
value: nni_aio_abort on an idle AIO marks it aborted with result
NNG_ECANCELED, but nni_aio_start unconditionally overwrites a_result with
NNG_OK before checking the abort flag, so the callback is dispatched with
NNG_OK and the code's own NNI_ASSERT(aio->a_result != NNG_OK) in the abort
branch is violated (assertsOk = false). -/
theorem nni_aio_start_aborted_dispatches_ok :
    ((nni_aio_abort nni_aio_init .ecanceled).1.abortFlag = true) ∧
    ((nni_aio_abort nni_aio_init .ecanceled).1.result = .ecanceled) ∧
    (nni_aio_start (nni_aio_abort nni_aio_init .ecanceled).1 false 100
        (some 1) 0).2 =
      { started := false, dispatched := some .ok, assertsOk := false } :=
  ⟨rfl, rfl, rfl⟩

/-- Claim C5: abort with an installed provider cancel function reads and
clears the function and argument and returns them for invocation outside
the lock with rv; abort with no provider marks the AIO aborted with result
rv and the next start does fail (returns false) — but it dispatches NNG_OK
rather than rv, because nni_aio_start clears a_result before examining the
abort flag.  This evaluation exhibits both halves at concrete inputs. -/
theorem nni_aio_abort_eval :
    (nni_aio_abort { nni_aio_init with cancelFn := some 7, cancelArg := 3 }
        .ecanceled = (nni_aio_init, some (7, 3, .ecanceled))) ∧
    ((nni_aio_abort nni_aio_init .ecanceled).1.abortFlag = true) ∧
    ((nni_aio_abort nni_aio_init .ecanceled).1.result = .ecanceled) ∧
    ((nni_aio_start (nni_aio_abort nni_aio_init .ecanceled).1 false 0
        (some 7) 3).2.started = false) ∧
    ((nni_aio_start (nni_aio_abort nni_aio_init .ecanceled).1 false 0
        (some 7) 3).2.dispatched = some .ok) :=
  ⟨rfl, rfl, rfl, rfl, rfl⟩

/-- Claim C2: after the 8-byte negotiation headers are exchanged, the pipe
is rejected with a protocol error and closed exactly when one of the
literal bytes at offsets 0,1,2,3,6,7 differs from 0x00 'S' 'P' 0x00 0x00
0x00; on acceptance the 16-bit value at offsets 4-5 is recorded as the peer
protocol id; the header sent by a peer with any 16-bit protocol id passes
the check with that id recorded, so two peers with mismatched protocol ids
both keep their pipes alive at the framing level. -/
theorem tlstran_nego_header_validation (rx : List Nat) (pa pb : Nat)
    (hpa : pa < 2 ^ 16) (hpb : pb < 2 ^ 16) :
    ((tlstran_nego_check rx).pipeClosed = true ↔
        rx.getD 0 0 ≠ 0 ∨ rx.getD 1 0 ≠ 0x53 ∨ rx.getD 2 0 ≠ 0x50 ∨
        rx.getD 3 0 ≠ 0 ∨ rx.getD 6 0 ≠ 0 ∨ rx.getD 7 0 ≠ 0) ∧
    ((tlstran_nego_check rx).pipeClosed = true ↔
        (tlstran_nego_check rx).err = some .eproto) ∧
    ((tlstran_nego_check rx).pipeClosed = false →
        (tlstran_nego_check rx).peer =
          some (nni_get16 (rx.getD 4 0) (rx.getD 5 0))) ∧
    (tlstran_nego_check (tlstran_txlen pa) =
        { peer := some pa, err := none, pipeClosed := false }) ∧
    (tlstran_nego_check (tlstran_txlen pb) =
        { peer := some pb, err := none, pipeClosed := false }) := by
  have hdr : ∀ q : Nat, q < 2 ^ 16 →
      tlstran_nego_check (tlstran_txlen q) =
        { peer := some q, err := none, pipeClosed := false } := by
    intro q hq
    unfold tlstran_nego_check tlstran_txlen nni_put16 nni_get16
    simp only [List.cons_append, List.nil_append, List.getD_cons_zero,
      List.getD_cons_succ]
    rw [if_neg (by simp)]
    simp only [NegoOutcome.mk.injEq, Option.some.injEq]
    exact ⟨by omega, by trivial, by trivial⟩
  refine ⟨?_, ?_, ?_, hdr pa hpa, hdr pb hpb⟩
  · unfold tlstran_nego_check
    split_ifs with h
    · exact iff_of_true rfl h
    · exact iff_of_false (by simp) h
  · unfold tlstran_nego_check
    split_ifs with h
    · exact iff_of_true rfl rfl
    · exact iff_of_false (by simp) (by simp)
  · unfold tlstran_nego_check
    split_ifs with h
    · exact fun h1 => absurd h1 (by simp)
    · exact fun _ => rfl

/-- Claim C2 witness: peers with protocol ids 0x30 (REQ) and 0x50 (PUB)
both pass the framing-level check, each recording the other's id. -/
theorem tlstran_nego_header_validation_witness :
    (0x30 : Nat) < 2 ^ 16 ∧ (0x50 : Nat) < 2 ^ 16 ∧
    tlstran_nego_check (tlstran_txlen 0x30) =
      { peer := some 0x30, err := none, pipeClosed := false } ∧
    tlstran_nego_check (tlstran_txlen 0x50) =
      { peer := some 0x50, err := none, pipeClosed := false } :=
  ⟨by decide, by decide,
   (tlstran_nego_header_validation (tlstran_txlen 0x30) 0x30 0x50
      (by decide) (by decide)).2.2.2.1,
   (tlstran_nego_header_validation (tlstran_txlen 0x30) 0x30 0x50
      (by decide) (by decide)).2.2.2.2⟩

/-- Claim C3: when the decoded 8-byte length header exceeds the pipe's
non-zero rcvmax, the pending receive AIO is finished with NNG_EMSGSIZE, no
body bytes are requested or delivered, and the framing layer does not close
the pipe. -/
theorem tlstran_recv_oversize_rejected (rxlen : List Nat) (rcvmax : Nat)
    (allocOk : Bool) (hmax : 0 < rcvmax) (hover : rcvmax < nni_get64 rxlen) :
    tlstran_recv_header (nni_get64 rxlen) rcvmax allocOk =
      { aioError := some .emsgsize, deliveredLen := none,
        bodyReadReq := none, pipeClosed := false } := by
  have h : nni_get64 rxlen > rcvmax ∧ rcvmax > 0 := ⟨hover, hmax⟩
  unfold tlstran_recv_header
  rw [if_pos h]

/-- Claim C3 witness: a 2 MiB length header against rcvmax = 1 MiB (the
spec's S6 scenario) is rejected with NNG_EMSGSIZE, nothing delivered, pipe
left open. -/
theorem tlstran_recv_oversize_rejected_witness :
    0 < 0x100000 ∧
    0x100000 < nni_get64 [0, 0, 0, 0, 0, 0x20, 0, 0] ∧
    tlstran_recv_header (nni_get64 [0, 0, 0, 0, 0, 0x20, 0, 0]) 0x100000
        true =
      { aioError := some .emsgsize, deliveredLen := none,
        bodyReadReq := none, pipeClosed := false } :=
  ⟨by decide, by decide,
   tlstran_recv_oversize_rejected [0, 0, 0, 0, 0, 0x20, 0, 0] 0x100000 true
     (by decide) (by decide)⟩

/-- Claim C4: a sent message is framed as an 8-byte big-endian length prefix
followed by the header region (only when non-empty) and the body region
(only when non-empty), in at most three I/O buffers, and the encoded length
equals header length + body length. -/
theorem tlstran_send_framing (header body : List Nat)
    (hlen : header.length + body.length < 2 ^ 64) :
    (tlstran_send_iovs header body).length ≤ 3 ∧
    (tlstran_send_iovs header body).head? =
      some (nni_put64 (header.length + body.length)) ∧
    (tlstran_send_iovs header body).flatten =
      nni_put64 (header.length + body.length) ++ header ++ body ∧
    nni_get64 (nni_put64 (header.length + body.length)) =
      header.length + body.length := by
  have hrt : nni_get64 (nni_put64 (header.length + body.length)) =
      header.length + body.length := by
    rw [nni_get64_put64, Nat.mod_eq_of_lt hlen]
  unfold tlstran_send_iovs
  rcases header with _ | ⟨h, hs⟩ <;> rcases body with _ | ⟨b, bs⟩ <;>
    simp_all [List.flatten]

/-- Claim C4 witness: the spec's S2 scenario — empty header, one-byte body
0x41 — yields exactly two buffers: 00 00 00 00 00 00 00 01 then 41. -/
theorem tlstran_send_framing_witness :
    (List.length ([] : List Nat) + List.length [0x41] < 2 ^ 64) ∧
    (tlstran_send_iovs [] [0x41]).flatten =
      nni_put64 (List.length ([] : List Nat) + List.length [0x41]) ++
        [] ++ [0x41] :=
  ⟨by decide, (tlstran_send_framing [] [0x41] (by decide)).2.2.1⟩

/-- Claim C6: nni_pipe_close is idempotent — the atomic swap lets only the
first call submit the pipe for reaping, later calls return without effect —
and for any pipe with a non-zero id the reap worker performs, in order:
protocol pipe_close, transport close, the post-remove event callback,
id-map removal, protocol pipe_stop, transport stop, socket-side removal,
final refcount release. -/
theorem nni_pipe_close_idempotent_reap_order (p : PipeCloseState) (id : Nat) :
    ((nni_pipe_close p).2 = !p.p_closed) ∧
    ((nni_pipe_close p).1.p_closed = true) ∧
    (nni_pipe_close (nni_pipe_close p).1 = ((nni_pipe_close p).1, false)) ∧
    ((nni_pipe_close { p_closed := false, reapSubmitted := false }).1.reapSubmitted = true) ∧
    (pipe_reap (id + 1) =
      [.protoPipeClose, .tranClose, .evRemPost, .idMapRemove,
       .protoPipeStop, .tranStop, .sockRemove, .refRele]) := by
  obtain ⟨c, r⟩ := p
  cases c <;> cases r <;>
    simp [nni_pipe_close, nni_atomic_swap_bool, pipe_reap]

/-- Claim C7: with the block allocation succeeding and the id allocator
honoring its contract, pipe_create sizes the combined block for the aligned
pipe header + protocol data + transport data (each fitting its region),
initializes the refcount to 2, assigns a non-zero 31-bit id that is fresh
in the global map, invokes both init hooks, succeeds exactly when both
hooks succeed, and on failure of id allocation or either hook closes the
pipe, releases the caller's reference, and returns the first failing code. -/
theorem pipe_create_spec (hdr ps ts : Nat) (used : List Nat) (pick : Nat)
    (rv2 rv3 : NngErr) (hlo : 1 ≤ pick) (hhi : pick ≤ 0x7fffffff)
    (hfresh : pick ∉ used) :
    ((pipe_create hdr ps ts used pick true rv2 rv3).size =
        some (NNI_ALIGN_UP hdr + NNI_ALIGN_UP ps + NNI_ALIGN_UP ts)) ∧
    (hdr ≤ NNI_ALIGN_UP hdr ∧ ps ≤ NNI_ALIGN_UP ps ∧ ts ≤ NNI_ALIGN_UP ts) ∧
    ((pipe_create hdr ps ts used pick true rv2 rv3).refcnt = 2) ∧
    ((pipe_create hdr ps ts used pick true rv2 rv3).p_id = pick) ∧
    (1 ≤ pick ∧ pick ≤ 0x7fffffff ∧ pick ∉ used) ∧
    ((pipe_create hdr ps ts used pick true rv2 rv3).tranInitCalled = true) ∧
    ((pipe_create hdr ps ts used pick true rv2 rv3).protoInitCalled = true) ∧
    ((pipe_create hdr ps ts used pick true rv2 rv3).err = none ↔
        rv2 = .ok ∧ rv3 = .ok) ∧
    ((pipe_create hdr ps ts used pick true rv2 rv3).closedPipe = true ↔
        ¬ (rv2 = .ok ∧ rv3 = .ok)) ∧
    ((pipe_create hdr ps ts used pick true rv2 rv3).releasedRef =
        (pipe_create hdr ps ts used pick true rv2 rv3).closedPipe) ∧
    (rv2 ≠ .ok →
        (pipe_create hdr ps ts used pick true rv2 rv3).err = some rv2) ∧
    (rv2 = .ok → rv3 ≠ .ok →
        (pipe_create hdr ps ts used pick true rv2 rv3).err = some rv3) ∧
    ((pipe_create hdr ps ts used 0 true rv2 rv3).err = some .enomem ∧
     (pipe_create hdr ps ts used 0 true rv2 rv3).closedPipe = true ∧
     (pipe_create hdr ps ts used 0 true rv2 rv3).releasedRef = true) := by
  have hid : nni_id_alloc32 used pick = .ok pick := by
    unfold nni_id_alloc32
    rw [if_pos ⟨hlo, hhi, hfresh⟩]
  have hid0 : nni_id_alloc32 used 0 = .error .enomem := by
    unfold nni_id_alloc32
    rw [if_neg]
    intro h
    omega
  have halign : ∀ n : Nat, n ≤ NNI_ALIGN_UP n := by
    intro n
    unfold NNI_ALIGN_UP
    omega
  unfold pipe_create
  simp only [hid, hid0]
  by_cases h2 : rv2 = .ok <;> by_cases h3 : rv3 = .ok <;>
    simp_all [halign]

/-- Claim C7 witness: a concrete successful creation (fresh id 6, both
hooks succeeding) and the corresponding failure facts. -/
theorem pipe_create_spec_witness :
    (1 ≤ 6 ∧ 6 ≤ 0x7fffffff ∧ (6 : Nat) ∉ [5]) ∧
    (pipe_create 100 40 24 [5] 6 true .ok .ok).refcnt = 2 ∧
    (pipe_create 100 40 24 [5] 6 true .ok .ok).p_id = 6 :=
  ⟨⟨by decide, by decide, by decide⟩,
   (pipe_create_spec 100 40 24 [5] 6 .ok .ok (by decide) (by decide)
      (by decide)).2.2.1,
   (pipe_create_spec 100 40 24 [5] 6 .ok .ok (by decide) (by decide)
      (by decide)).2.2.2.1⟩

/-- Claim C8: when the listener's accept aio completes with a non-zero
result, a pending user accept aio is finished with that error;
out-of-memory and no-files errors trigger a 10 ms cool-down sleep before
re-arming (the timer callback re-arms accept on success); closed and
stopped errors cease accepting; any other error re-arms accept immediately
provided the endpoint is not closed. -/
theorem tlstran_accept_error_handling (rv allocRv : NngErr)
    (epClosed userPresent : Bool) (herr : rv ≠ .ok) :
    ((tlstran_accept_cb rv epClosed allocRv userPresent).finishUser =
        if userPresent then some rv else none) ∧
    ((rv = .enomem ∨ rv = .enofiles) →
        (tlstran_accept_cb rv epClosed allocRv userPresent).action =
          .sleepRetry 10) ∧
    ((rv = .eclosed ∨ rv = .estopped) →
        (tlstran_accept_cb rv epClosed allocRv userPresent).action = .stop) ∧
    (rv ≠ .eclosed → rv ≠ .estopped → rv ≠ .enomem → rv ≠ .enofiles →
        epClosed = false →
        (tlstran_accept_cb rv epClosed allocRv userPresent).action =
          .acceptNow) ∧
    (tlstran_timer_cb .ok = .acceptNow) := by
  unfold tlstran_accept_cb tlstran_timer_cb
  simp only [if_pos herr, ne_eq]
  have hne : ¬ (rv = NngErr.ok) := herr
  refine ⟨by simp [hne], ?_, ?_, ?_, by simp⟩
  · rintro (h | h) <;> subst h <;> simp
  · rintro (h | h) <;> subst h <;> simp
  · intro h1 h2 h3 h4 h5
    subst h5
    simp [hne, h1, h2, h3, h4]

/-- Claim C8 witness: a connection-aborted accept failure on an open
endpoint finishes the pending user aio with the error and re-arms accept
immediately. -/
theorem tlstran_accept_error_handling_witness :
    NngErr.econnaborted ≠ NngErr.ok ∧
    (tlstran_accept_cb .econnaborted false .ok true).finishUser =
      some .econnaborted ∧
    (tlstran_accept_cb .econnaborted false .ok true).action = .acceptNow :=
  ⟨by decide,
   by
    have h := (tlstran_accept_error_handling .econnaborted .ok false true
      (by decide)).1
    simpa using h,
   (tlstran_accept_error_handling .econnaborted .ok false true
      (by decide)).2.2.2.1 (by decide) (by decide) (by decide) (by decide)
      rfl⟩

/-- Claim C9: ipc_send_cancel searches the receive-AIO list when the aio is
not at the head of the send queue, so a send AIO queued behind the head is
never found: the connection state is unchanged, nothing is finished, and
the aio stays on the send queue. -/
theorem ipc_send_cancel_walks_recv_list (c : IpcConn) (aio : Nat)
    (rv : NngErr) (hin : aio ∈ c.send_aios)
    (hhead : c.send_aios.head? ≠ some aio) (hnr : aio ∉ c.recv_aios) :
    ipc_send_cancel c aio rv =
      { conn := c, canceledIo := false, finished := none } ∧
    aio ∈ (ipc_send_cancel c aio rv).conn.send_aios := by
  have h : ipc_send_cancel c aio rv =
      { conn := c, canceledIo := false, finished := none } := by
    unfold ipc_send_cancel
    rw [if_neg hhead, if_neg hnr]
  exact ⟨h, by rw [h]; exact hin⟩

/-- Claim C9 witness: with send queue [1, 2] and empty receive queue,
cancelling the queued send aio 2 leaves everything untouched and finishes
nothing. -/
theorem ipc_send_cancel_walks_recv_list_witness :
    (2 ∈ [1, 2] ∧
      List.head? [1, 2] ≠ some 2 ∧ (2 : Nat) ∉ ([] : List Nat)) ∧
    ipc_send_cancel
        { send_aios := [1, 2], recv_aios := [], send_rv := .ok,
          recv_rv := .ok } 2 .ecanceled =
      { conn := { send_aios := [1, 2], recv_aios := [], send_rv := .ok,
                  recv_rv := .ok },
        canceledIo := false, finished := none } :=
  ⟨⟨by decide, by decide, by decide⟩,
   (ipc_send_cancel_walks_recv_list
      { send_aios := [1, 2], recv_aios := [], send_rv := .ok,
        recv_rv := .ok } 2 .ecanceled (by decide) (by decide)
      (by decide)).1⟩

/-- Claim C10: matching a waiting pipe to a user aio copies the endpoint's
current rcvmax into the pipe at that moment; a later receive-max-size
option update changes only the endpoint's field and leaves every matched
(and waiting) pipe's limit unchanged. -/
theorem tlstran_rcvmax_fixed_at_match (ep : TlsEp) (p : TlsPipe)
    (rest : List TlsPipe) (v : Nat) (hw : ep.waitpipes = p :: rest)
    (hu : ep.useraio = true) :
    ((tlstran_ep_match ep).matched =
        { p with rcvmax := ep.rcvmax } :: ep.matched) ∧
    ((tlstran_ep_match ep).waitpipes = rest) ∧
    ((tlstran_ep_match ep).useraio = false) ∧
    ((tlstran_ep_set_recvmaxsz (tlstran_ep_match ep) (some v)).rcvmax = v) ∧
    ((tlstran_ep_set_recvmaxsz (tlstran_ep_match ep) (some v)).matched =
        { p with rcvmax := ep.rcvmax } :: ep.matched) ∧
    (∀ (e : TlsEp) (w : Option Nat),
        (tlstran_ep_set_recvmaxsz e w).matched = e.matched ∧
        (tlstran_ep_set_recvmaxsz e w).waitpipes = e.waitpipes) := by
  have hset : ∀ (e : TlsEp) (w : Option Nat),
      (tlstran_ep_set_recvmaxsz e w).matched = e.matched ∧
      (tlstran_ep_set_recvmaxsz e w).waitpipes = e.waitpipes := by
    intro e w
    cases w <;> simp [tlstran_ep_set_recvmaxsz]
  have hm : tlstran_ep_match ep =
      { ep with waitpipes := rest, useraio := false,
                matched := { p with rcvmax := ep.rcvmax } :: ep.matched } := by
    unfold tlstran_ep_match
    rw [hw]
    simp [hu]
  refine ⟨by rw [hm], by rw [hm], by rw [hm], ?_, ?_, hset⟩
  · rw [hm]
    simp [tlstran_ep_set_recvmaxsz]
  · rw [hm]
    simp [tlstran_ep_set_recvmaxsz]

/-- Claim C10 witness: an endpoint with rcvmax 4096 matches a waiting pipe
(the pipe's limit becomes 4096); raising the endpoint limit to 8192 leaves
the matched pipe at 4096. -/
theorem tlstran_rcvmax_fixed_at_match_witness :
    (({ rcvmax := 4096, useraio := true, waitpipes := [{ pid := 1, rcvmax := 0 }],
        matched := [] } : TlsEp).waitpipes = [{ pid := 1, rcvmax := 0 }] ∧
     ({ rcvmax := 4096, useraio := true, waitpipes := [{ pid := 1, rcvmax := 0 }],
        matched := [] } : TlsEp).useraio = true) ∧
    (tlstran_ep_set_recvmaxsz
        (tlstran_ep_match
          { rcvmax := 4096, useraio := true,
            waitpipes := [{ pid := 1, rcvmax := 0 }], matched := [] })
        (some 8192)).matched = [{ pid := 1, rcvmax := 4096 }] :=
  ⟨⟨rfl, rfl⟩,
   (tlstran_rcvmax_fixed_at_match
      { rcvmax := 4096, useraio := true,
        waitpipes := [{ pid := 1, rcvmax := 0 }], matched := [] }
      { pid := 1, rcvmax := 0 } [] 8192 rfl rfl).2.2.2.2.1⟩

end Nng
